import Mathlib

/-!
Shallow embedding, in Lean 4, of the action-execution and session layers of
the spongecake repository, together with theorems settling the specification
claims about them.

The embedded code comes from:
  - `docker/api_server.py` — the in-container FastAPI executor
    (`click`, `scroll`, `keypress`, `type_text`, `wait`, `goto`,
    `take_screenshot`, `api_action`);
  - `spongecake/spongecake/desktop.py` — the SDK-side `Desktop` class
    (`start`, `stop`, `scroll`, `keypress`, `type_text`, `get_screenshot`);
  - `spongecake-ui/backend/utils.py` — `find_available_port`;
  - `spongecake-ui/backend/schemas.py` and `server.py` — request validation,
    the shared result holder, the worker thread and `cancel_agent`.

Conventions: an in-container command dispatched through `execute_command`
is a token list (`List String`, mirroring the Python argv list); a
command dispatched through `Desktop.exec` is a single shell string,
built exactly as the Python f-string builds it.  A dispatch that may
raise is modelled with an explicit failure oracle or an `Except` value.
-/

namespace Spongecake

/-- An argv-style command, as passed to `execute_command` in
`docker/api_server.py` (e.g. `["xdotool", "mousemove", "10", "20"]`). -/
abbrev Cmd := List String

/-! ## Scroll (claim C3)

`scroll` in `docker/api_server.py` (lines 119–152): move the pointer, then
for a nonzero vertical delta issue 3 clicks of button 4 (scroll-up, delta
negative) or 5 (scroll-down, delta positive), then for a nonzero horizontal
delta issue 3 clicks of button 6 (left) or 7 (right).
`Desktop.scroll` in `desktop.py` (lines 162–187) is the same shape with
shell-string commands and 4 clicks per axis (the local `clicks =
int(abs(scroll_y)/100)` is computed but never used). -/

/-- Trace of commands dispatched by `scroll` in `docker/api_server.py`. -/
def scrollCmds (x y scroll_x scroll_y : Int) : List Cmd :=
  ["xdotool", "mousemove", toString x, toString y] ::
  ((if scroll_y ≠ 0 then
      List.replicate 3 ["xdotool", "click", if scroll_y < 0 then "4" else "5"]
    else []) ++
   (if scroll_x ≠ 0 then
      List.replicate 3 ["xdotool", "click", if scroll_x < 0 then "6" else "7"]
    else []))

/-- The fixed `export DISPLAY=:99 && ` prefix of every `Desktop.exec`
shell command (`self.display` is set to `":99"` in `Desktop.__init__`). -/
def displayPrefix : String := "export DISPLAY=:99 && "

/-- Shell command `Desktop.scroll` uses to move the pointer. -/
def desktopMoveCmd (x y : Int) : String :=
  displayPrefix ++ "xdotool mousemove " ++ toString x ++ " " ++ toString y

/-- Shell command `Desktop.scroll` uses for one scroll tick of `button`. -/
def desktopClickCmd (button : Int) : String :=
  displayPrefix ++ "xdotool click " ++ toString button

/-- Trace of shell commands dispatched by `Desktop.scroll` in `desktop.py`. -/
def desktopScrollCmds (x y scroll_x scroll_y : Int) : List String :=
  desktopMoveCmd x y ::
  ((if scroll_y ≠ 0 then
      List.replicate 4 (desktopClickCmd (if scroll_y < 0 then 4 else 5))
    else []) ++
   (if scroll_x ≠ 0 then
      List.replicate 4 (desktopClickCmd (if scroll_x < 0 then 6 else 7))
    else []))

/-- Number of scroll ticks of a given button that `scroll` dispatches
after the initial pointer move (`(trace).drop 1` skips the `mousemove`,
which is pinned separately). -/
def apiScrollTicks (x y scroll_x scroll_y : Int) (button : String) : Nat :=
  ((scrollCmds x y scroll_x scroll_y).drop 1).count ["xdotool", "click", button]

/-- Number of scroll ticks of a given button that `Desktop.scroll`
dispatches after the initial pointer move. -/
def desktopScrollTicks (x y scroll_x scroll_y : Int) (button : Int) : Nat :=
  ((desktopScrollCmds x y scroll_x scroll_y).drop 1).count (desktopClickCmd button)

/-! ## Type (claim C4) -/

/-- Command dispatched by `type_text` in `docker/api_server.py`:
`["xdotool", "type", "--clearmodifiers", text]`. -/
def type_text_cmd (text : String) : Cmd :=
  ["xdotool", "type", "--clearmodifiers", text]

/-- Shell command dispatched by `Desktop.type_text` in `desktop.py`:
`f"export DISPLAY={self.display} && xdotool type '{text}'"`. -/
def desktopTypeTextCmd (text : String) : String :=
  displayPrefix ++ "xdotool type \x27" ++ text ++ "\x27"

/-- Whether `pat` occurs as a contiguous substring of `s` (used to state
that a shell command does or does not carry an option). -/
def strContainsSubstr (s pat : String) : Bool :=
  decide (List.IsInfix pat.toList s.toList)

/-! ## Screenshot (claim C2) -/

/-- The JSON body returned by `take_screenshot` in `docker/api_server.py`:
always `status`/`action`, plus `screenshot` on success or `error` on
failure. -/
structure ScreenshotResponse where
  status : String
  action : String
  screenshot : Option String
  error : Option String
  deriving Repr, DecidableEq

/-- `take_screenshot` from `docker/api_server.py` (lines 227–258).  The
capture subprocess is modelled by its outcome: `.ok stdout` when the
`import … | base64` pipeline succeeds, `.error msg` when
`execute_command` raises.  The `try/except` converts the failure into a
structured `status = "error"` body; the function itself is total (never
raises). -/
def take_screenshot (capture : Except String String) : ScreenshotResponse :=
  match capture with
  | .ok result =>
      { status := "success", action := "screenshot",
        screenshot := some result.trim, error := none }
  | .error e =>
      { status := "error", action := "screenshot",
        screenshot := none, error := some e }

/-- Outcome of the `docker exec … import … | base64` subprocess run by
`Desktop.get_screenshot` (`subprocess.run` with `capture_output=True`). -/
structure ProcResult where
  returncode : Int
  stdout : String
  stderr : String
  deriving Repr, DecidableEq

/-- `Desktop.get_screenshot` from `desktop.py` (lines 247–276): if the
subprocess exits nonzero it raises `RuntimeError` (modelled as
`Except.error` carrying the exact message built from `proc.stderr`);
otherwise it returns `proc.stdout.strip()`. -/
def get_screenshot (proc : ProcResult) : Except String String :=
  if proc.returncode ≠ 0 then
    .error ("Screenshot command failed:\nSTDERR: " ++ proc.stderr ++ "\n")
  else
    .ok proc.stdout.trim

/-! ## Keypress (claim C1)

`keypress` in `docker/api_server.py` (lines 154–194): iterate over the
keys; `"CTRL"`/`"SHIFT"` (case-insensitive) dispatch a `keydown` and set
a flag; `"enter"`/`"space"` map to dedicated key codes; any other token is
lower-cased and sent as a key symbol.  After the loop, a `keyup` is
dispatched for each flag that was set.  There is no `try/finally`: when a
dispatch raises (`execute_command` raises `HTTPException` on a failed
subprocess), the loop aborts and the release code is never reached.
`Desktop.keypress` in `desktop.py` (lines 192–231) has exactly the same
control flow over `Desktop.exec` shell strings. -/

/-- Python `str.upper()`, character-wise (the key tokens involved are
ASCII, where the two agree). -/
def strUpper (s : String) : String := ⟨s.data.map Char.toUpper⟩

/-- Python `str.lower()`, character-wise. -/
def strLower (s : String) : String := ⟨s.data.map Char.toLower⟩

/-- State of one `keypress` run: the commands dispatched so far, in
order, and whether a dispatch has raised (aborting the function).
`α` is `Cmd` for `docker/api_server.py` and `String` (a shell command)
for `Desktop` methods. -/
structure ExecState (α : Type) where
  issued : List α
  raised : Bool
  deriving Repr, DecidableEq

/-- Dispatch one command through `execute_command` / `Desktop.exec`.
`fails n` tells whether the (n+1)-th dispatched command raises (the
subprocess itself ran, so the command still appears in the trace).
After a raise, nothing further executes. -/
def execCmd {α : Type} (fails : Nat → Bool) (c : α) (s : ExecState α) :
    ExecState α :=
  if s.raised then s
  else { issued := s.issued ++ [c], raised := fails s.issued.length }

/-- One iteration of the `for k in keys` loop of `keypress`
(`docker/api_server.py` lines 166–184), threading
`(exec-state, ctrl_pressed, shift_pressed)`. -/
def keypressStep (fails : Nat → Bool) (acc : ExecState Cmd × Bool × Bool)
    (k : String) : ExecState Cmd × Bool × Bool :=
  let (s, cp, sp) := acc
  if s.raised then acc
  else if strUpper k = "CTRL" then
    let s1 := execCmd fails ["xdotool", "keydown", "ctrl"] s
    (s1, if s1.raised then cp else true, sp)
  else if strUpper k = "SHIFT" then
    let s1 := execCmd fails ["xdotool", "keydown", "shift"] s
    (s1, cp, if s1.raised then sp else true)
  else if strLower k = "enter" then
    (execCmd fails ["xdotool", "key", "Return"] s, cp, sp)
  else if strLower k = "space" then
    (execCmd fails ["xdotool", "key", "space"] s, cp, sp)
  else
    (execCmd fails ["xdotool", "key", strLower k] s, cp, sp)

/-- `keypress` from `docker/api_server.py` (lines 154–194): process the
keys in order, then release any held modifier (ctrl first, then shift).
`execCmd` no-ops once `raised` is set, which models the abort. -/
def keypress (fails : Nat → Bool) (keys : List String) : ExecState Cmd :=
  let (s, cp, sp) := keys.foldl (keypressStep fails) (⟨[], false⟩, false, false)
  let s1 := if cp then execCmd fails ["xdotool", "keyup", "ctrl"] s else s
  if sp then execCmd fails ["xdotool", "keyup", "shift"] s1 else s1

/-- Failure oracle for the case where no dispatch raises. -/
def noFail : Nat → Bool := fun _ => false

/-- One iteration of the `for k in keys` loop of `Desktop.keypress`
(`desktop.py` lines 203–223); identical control flow to the in-container
`keypress`, over `Desktop.exec` shell strings. -/
def desktopKeypressStep (fails : Nat → Bool)
    (acc : ExecState String × Bool × Bool) (k : String) :
    ExecState String × Bool × Bool :=
  let (s, cp, sp) := acc
  if s.raised then acc
  else if strUpper k = "CTRL" then
    let s1 := execCmd fails (displayPrefix ++ "xdotool keydown ctrl") s
    (s1, if s1.raised then cp else true, sp)
  else if strUpper k = "SHIFT" then
    let s1 := execCmd fails (displayPrefix ++ "xdotool keydown shift") s
    (s1, cp, if s1.raised then sp else true)
  else if strLower k = "enter" then
    (execCmd fails (displayPrefix ++ "xdotool key Return") s, cp, sp)
  else if strLower k = "space" then
    (execCmd fails (displayPrefix ++ "xdotool key space") s, cp, sp)
  else
    (execCmd fails (displayPrefix ++ "xdotool key \x27" ++ strLower k ++ "\x27") s,
     cp, sp)

/-- `Desktop.keypress` from `desktop.py` (lines 192–231). -/
def desktopKeypress (fails : Nat → Bool) (keys : List String) :
    ExecState String :=
  let (s, cp, sp) :=
    keys.foldl (desktopKeypressStep fails) (⟨[], false⟩, false, false)
  let s1 :=
    if cp then execCmd fails (displayPrefix ++ "xdotool keyup ctrl") s else s
  if sp then execCmd fails (displayPrefix ++ "xdotool keyup shift") s1 else s1

/-- Failure oracle making the second dispatched command raise — e.g. a
batch `["CTRL", "a"]` whose `xdotool key a` subprocess fails. -/
def failSecond : Nat → Bool := fun n => n == 1

/-! ## Port finder (claim C5)

`find_available_port` in `spongecake-ui/backend/utils.py` (lines 32–53):
probe `start_port`, `start_port+1`, …, at most `max_attempts` ports, in
ascending order; return the first available one; if all probes fail,
raise `PortNotAvailableError`.  `is_port_available` is a socket-bind
test, modelled as an availability oracle `avail : Nat → Bool`. -/

/-- The `for _ in range(max_attempts)` loop of `find_available_port`,
returning the list of ports probed (in order) and `some port` for a
return, `none` for the `PortNotAvailableError` raise. -/
def findAvailablePortAux (avail : Nat → Bool) :
    Nat → Nat → List Nat × Option Nat
  | _, 0 => ([], none)
  | current_port, n + 1 =>
      if avail current_port then ([current_port], some current_port)
      else
        let r := findAvailablePortAux avail (current_port + 1) n
        (current_port :: r.1, r.2)

/-- `find_available_port` from `spongecake-ui/backend/utils.py`. -/
def find_available_port (avail : Nat → Bool) (start_port : Nat)
    (max_attempts : Nat) : List Nat × Option Nat :=
  findAvailablePortAux avail start_port max_attempts

/-! ## Sandbox lifecycle (claim C7)

`Desktop.stop` (`desktop.py` lines 112–122) and `Desktop.start`
(lines 48–110).  The docker daemon's view of the one named container is
`none` (absent) or `some status` (e.g. `"running"`, `"exited"`). -/

/-- Observable outcome of `Desktop.stop`. -/
inductive StopOutcome where
  /-- The container was found, stopped and removed. -/
  | stoppedAndRemoved
  /-- `containers.get` raised `NotFound`; the `except` clause prints
  a message and the method returns normally. -/
  | notFoundOk
  deriving Repr, DecidableEq

/-- `Desktop.stop`: look the container up; stop and remove it; a
`NotFound` is absorbed (no exception escapes in either case). -/
def desktopStop (container : Option String) : Option String × StopOutcome :=
  match container with
  | some _ => (none, .stoppedAndRemoved)
  | none => (none, .notFoundOk)

/-- Observable outcome of `Desktop.start`: the container's state
afterwards, plus which docker operations were issued. -/
structure StartResult where
  /-- Container status after the call. -/
  state : Option String
  /-- Whether `containers.run` was called (a new container created). -/
  created : Bool
  /-- Whether `container.start()` was called (a restart issued). -/
  started : Bool
  deriving Repr, DecidableEq

/-- `Desktop.start`: if the container exists and is running, reuse it
untouched; if it exists but is not running, `container.start()` it; if
absent, pull the image and `containers.run` a new one (the pull-retry
path also ends in `containers.run`). -/
def desktopStart (container : Option String) : StartResult :=
  match container with
  | some status =>
      if status ≠ "running" then
        { state := some "running", created := false, started := true }
      else
        { state := some status, created := false, started := false }
  | none =>
      { state := some "running", created := true, started := false }

/-! ## Request validation (claim C8)

`RequestSchemas.AgentRequestSchema` in `spongecake-ui/backend/schemas.py`
declares exactly two fields, `messages` (required string) and
`auto_mode` (boolean).  marshmallow 3's default `unknown = RAISE` policy
rejects any undeclared key with a `ValidationError`, so `schema.load`
either fails or returns a dict whose keys all lie in the declared set. -/

/-- A JSON scalar as it appears in the request body. -/
inductive JVal where
  | str (s : String)
  | bool (b : Bool)
  deriving Repr, DecidableEq

/-- The fields declared by `AgentRequestSchema`. -/
def agentSchemaFields : List String := ["messages", "auto_mode"]

/-- `AgentRequestSchema().load(data)`: raise `ValidationError` on any
undeclared key, on a missing or non-string `messages`, or on a
non-boolean `auto_mode`; otherwise return the data unchanged. -/
def agentSchemaLoad (data : List (String × JVal)) :
    Except String (List (String × JVal)) :=
  if data.any (fun kv => !(agentSchemaFields.contains kv.1)) then
    .error "Unknown field."
  else if data.any (fun kv => kv.1 == "messages" && !(match kv.2 with
      | .str _ => true | _ => false)) then
    .error "Not a valid string."
  else if data.any (fun kv => kv.1 == "auto_mode" && !(match kv.2 with
      | .bool _ => true | _ => false)) then
    .error "Not a valid boolean."
  else if (data.lookup "messages").isNone then
    .error "Missing data for required field."
  else
    .ok data

/-- `validated_data.get("safety_acknowledged", False)` as evaluated in
`api_run_agent` (`server.py` line 380), coerced to the boolean actually
forwarded to the run. -/
def safetyAckOf (validated : List (String × JVal)) : Bool :=
  match validated.lookup "safety_acknowledged" with
  | some (.bool b) => b
  | some (.str _) => false
  | none => false

/-! ## Shared result holder (claim C9)

`SpongecakeServer` declares `result = [None]` at class level
(`server.py` line 175): a single mutable one-slot list shared by every
invocation (the handlers assign `self.result[0] = …`, which mutates the
class attribute in place).  `run_agent_action` (lines 209–285) reads
`agent_response = self.result[0]` after the action returns — or after
the `except` clause swallowed an exception — so the value it returns is
whatever the holder currently contains. -/

/-- The part of the server state the claim is about: the contents of the
shared `result[0]` slot. -/
structure ServerState where
  result0 : Option (List String)
  deriving Repr, DecidableEq

/-- The fresh server's holder, `result = [None]`. -/
def initServerState : ServerState := { result0 := none }

/-- One invocation of `run_agent_action`.  The handlers are invoked from
inside `desktop.action` (the agent module); `handlerWrite` abstracts
their net effect on the holder: `some v` when some handler ran and left
`result[0] = v`, `none` when no handler wrote it — e.g. an exception was
raised before any handler ran, which the `except Exception` clause
swallows.  Either way the function then returns `self.result[0]`. -/
def run_agent_action (st : ServerState)
    (handlerWrite : Option (Option (List String))) :
    ServerState × Option (List String) :=
  let st1 : ServerState :=
    match handlerWrite with
    | some v => { result0 := v }
    | none => st
  (st1, st1.result0)

/-! ## Session event stream (claim C6)

Events enqueued on a session's `log_queue` by `_run_agent_in_thread`
(`server.py` lines 418–516) and `cancel_agent` (lines 518–583), by their
JSON `type` tag.  The initial `log_queue.put("Starting Spongecake agent
action...")` enqueues a raw string with no tag. -/

/-- One queue entry, by its `type` tag (`plain` = the untagged initial
string, which `stream_logs` fails to parse and skips). -/
inductive Event where
  | plain (msg : String)
  | log (msg : String)
  | result (data : String)
  | complete (msg : String)
  deriving Repr, DecidableEq

/-- Number of `complete` events in a queue history. -/
def countComplete (events : List Event) : Nat :=
  events.countP (fun e => match e with | .complete _ => true | _ => false)

/-- Events `_run_agent_in_thread` enqueues over its whole run, given the
outcome of `run_agent_action`: the initial untagged string; on normal
return one `result`; on an exception one `log` plus one error `result`;
and — in the `finally` block, hence on every path — one `complete`.
(`QueueHandler` may interleave further `log` events; they carry no
`complete` tag and are omitted.) -/
def runAgentInThreadEvents (outcome : Except String String) : List Event :=
  Event.plain "Starting Spongecake agent action..." ::
  (match outcome with
   | .ok res => [Event.result res]
   | .error e =>
       [Event.log ("Error in agent thread: " ++ e),
        Event.result ("Error: " ++ e)]) ++
  [Event.complete "Task completed"]

/-- Events `cancel_agent` enqueues on the session's queue (lines
537–570): a cancellation `log`, a cancellation `result`, and a
`complete`. -/
def cancelAgentEvents : List Event :=
  [Event.log "Cancellation requested by user\n",
   Event.result "Agent action cancelled by user",
   Event.complete "Task cancelled"]

/-- Queue history of a session cancelled while its worker thread is
still running: the thread has enqueued its first `k` events when
`cancel_agent` runs; the thread then keeps going (cancellation is
cooperative, and the `finally` block always runs) and enqueues the
rest. -/
def cancelledSessionTrace (k : Nat) (outcome : Except String String) :
    List Event :=
  (runAgentInThreadEvents outcome).take k ++ cancelAgentEvents ++
    (runAgentInThreadEvents outcome).drop k

/-! ## Generic action dispatch (claim C10)

`ActionRequest` (`docker/api_server.py` lines 68–78) and `api_action`
(lines 305–342).  Durations are modelled as rationals: `api_action`
never computes with `seconds`, it only substitutes the default and
echoes the value. -/

/-- The `ActionRequest` pydantic model: a `type` tag plus optional
per-tag parameters. -/
structure ActionRequest where
  type : String
  x : Option Int := none
  y : Option Int := none
  button : Option String := none
  scroll_x : Option Int := none
  scroll_y : Option Int := none
  keys : Option (List String) := none
  text : Option String := none
  seconds : Option ℚ := none
  url : Option String := none
  deriving Repr, DecidableEq

/-- The success body each helper returns (`{"status": "success",
"action": …, …echoed params}`), one constructor per action tag. -/
inductive ApiResponse where
  | click (x y : Int) (button : String)
  | scroll (x y scroll_x scroll_y : Int)
  | keypress (keys : List String)
  | typeText (text : String)
  | wait (seconds : ℚ)
  | screenshot (r : ScreenshotResponse)
  | goto (url : String)
  deriving Repr, DecidableEq

/-- Command dispatched by `click` in `docker/api_server.py`, after the
button-name mapping (left→1, middle/wheel→2, right→3, unknown→1). -/
def clickCmd (x y : Int) (button : String) : Cmd :=
  let button_num : Nat :=
    if strLower button = "left" then 1
    else if strLower button = "middle" then 2
    else if strLower button = "wheel" then 2
    else if strLower button = "right" then 3
    else 1
  ["xdotool", "mousemove", toString x, toString y, "click", toString button_num]

/-- Command dispatched by `goto` in `docker/api_server.py`. -/
def gotoCmd (url : String) : Cmd :=
  ["bash", "-c", "export DISPLAY=:99 && firefox-esr -new-tab " ++ url ++ " &"]

/-- The screen-capture command run by `take_screenshot`. -/
def screenshotCmd : Cmd :=
  ["bash", "-c", "export DISPLAY=:99 && import -window root png:- | base64 -w 0"]

/-- `api_action` from `docker/api_server.py` (lines 305–342): dispatch on
`action.type`, validating the per-tag required parameters first.  The
result is the list of commands dispatched against the display plus
either `.error (status, detail)` for a raised `HTTPException` or
`.ok response`.  Every 400 is raised before any command is dispatched,
so those branches carry an empty command list.  `capture` is the
screen-capture outcome used by the `screenshot` branch; the failure
oracle for dispatched commands is `noFail` (this claim is about request
validation, not dispatch failures). -/
def api_action (capture : Except String String) (action : ActionRequest) :
    List Cmd × Except (Nat × String) ApiResponse :=
  if action.type = "click" then
    match action.x, action.y with
    | some x, some y =>
        ([clickCmd x y ((action.button).getD "left")],
         .ok (.click x y ((action.button).getD "left")))
    | _, _ => ([], .error (400, "Click action requires x and y coordinates"))
  else if action.type = "scroll" then
    match action.x, action.y with
    | some x, some y =>
        (scrollCmds x y ((action.scroll_x).getD 0) ((action.scroll_y).getD 0),
         .ok (.scroll x y ((action.scroll_x).getD 0) ((action.scroll_y).getD 0)))
    | _, _ => ([], .error (400, "Scroll action requires x and y coordinates"))
  else if action.type = "keypress" then
    match action.keys with
    | none => ([], .error (400, "Keypress action requires keys"))
    | some [] => ([], .error (400, "Keypress action requires keys"))
    | some keys => ((keypress noFail keys).issued, .ok (.keypress keys))
  else if action.type = "type" then
    match action.text with
    | none => ([], .error (400, "Type action requires text"))
    | some text => ([type_text_cmd text], .ok (.typeText text))
  else if action.type = "wait" then
    let s : ℚ := match action.seconds with
      | none => 2
      | some v => if v = 0 then 2 else v
    ([], .ok (.wait s))
  else if action.type = "screenshot" then
    ([screenshotCmd], .ok (.screenshot (take_screenshot capture)))
  else if action.type = "goto" then
    match action.url with
    | none => ([], .error (400, "Goto action requires a URL"))
    | some url => ([gotoCmd url], .ok (.goto url))
  else
    ([], .error (400, "Unknown action type: " ++ action.type))

/-! # Theorems -/

/-- C1: the claim says the modifier keyup is issued on every execution
path, even when a later key dispatch raises.  The code has no
`try/finally`, so it is not: at the failing input `keys = ["CTRL", "a"]`
with the dispatch of `"a"` raising, both `keypress` implementations
issue the `keydown` for ctrl, abort, and never issue the `keyup` —
the virtual keyboard is left with ctrl held.  (The last conjunct shows
the intended behaviour on the same batch when nothing raises: exactly
one release, after all keys.) -/
theorem keypress_modifier_leaked_on_raise :
    (keypress failSecond ["CTRL", "a"]).issued =
      [["xdotool", "keydown", "ctrl"], ["xdotool", "key", "a"]] ∧
    (keypress failSecond ["CTRL", "a"]).raised = true ∧
    (keypress failSecond ["CTRL", "a"]).issued.count
      ["xdotool", "keyup", "ctrl"] = 0 ∧
    (desktopKeypress failSecond ["CTRL", "a"]).issued =
      [displayPrefix ++ "xdotool keydown ctrl",
       displayPrefix ++ "xdotool key \x27a\x27"] ∧
    (desktopKeypress failSecond ["CTRL", "a"]).raised = true ∧
    (desktopKeypress failSecond ["CTRL", "a"]).issued.count
      (displayPrefix ++ "xdotool keyup ctrl") = 0 ∧
    (keypress noFail ["CTRL", "a"]).issued =
      [["xdotool", "keydown", "ctrl"], ["xdotool", "key", "a"],
       ["xdotool", "keyup", "ctrl"]] := by
  refine ⟨?_, ?_, ?_, ?_, ?_, ?_, ?_⟩ <;> decide

/-- C2 (amended): the in-container `take_screenshot` never raises — a
capture failure is converted into a `status = "error"` body carrying the
message, and a success into a `status = "success"` body carrying the
base64 data.  (`Desktop.get_screenshot`, by contrast, raises; see the
counterexample.) -/
theorem take_screenshot_converts_failures (e out : String) :
    take_screenshot (.error e) =
      { status := "error", action := "screenshot",
        screenshot := none, error := some e } ∧
    take_screenshot (.ok out) =
      { status := "success", action := "screenshot",
        screenshot := some out.trim, error := none } :=
  ⟨rfl, rfl⟩

/-- C2, counterexample to the claim as stated: `Desktop.get_screenshot`
does not convert a capture failure into a structured error result — on a
subprocess that exits 1 it raises `RuntimeError` (an `Except.error`
escapes). -/
theorem get_screenshot_raises_on_failure :
    get_screenshot { returncode := 1, stdout := "", stderr := "boom" } =
      Except.error "Screenshot command failed:\nSTDERR: boom\n" := by
  rfl

/-- C3: both scroll implementations first move the pointer to `(x, y)`
unconditionally; `scroll_y < 0` selects button 4 ("up"), `scroll_y > 0`
button 5 ("down"), `scroll_y = 0` issues no vertical tick regardless of
`scroll_x`; `scroll_x < 0` selects button 6 ("left"), `scroll_x > 0`
button 7 ("right"); and each nonzero axis gets a fixed tick count —
3 in `api_server.scroll`, 4 in `Desktop.scroll` — independent of the
delta's magnitude. -/
theorem scroll_direction_and_fixed_ticks (x y sx sy : Int) :
    (scrollCmds x y sx sy).head? =
      some ["xdotool", "mousemove", toString x, toString y] ∧
    (desktopScrollCmds x y sx sy).head? = some (desktopMoveCmd x y) ∧
    (sy < 0 → apiScrollTicks x y sx sy "4" = 3 ∧
      apiScrollTicks x y sx sy "5" = 0 ∧
      desktopScrollTicks x y sx sy 4 = 4 ∧
      desktopScrollTicks x y sx sy 5 = 0) ∧
    (0 < sy → apiScrollTicks x y sx sy "5" = 3 ∧
      apiScrollTicks x y sx sy "4" = 0 ∧
      desktopScrollTicks x y sx sy 5 = 4 ∧
      desktopScrollTicks x y sx sy 4 = 0) ∧
    (sy = 0 → apiScrollTicks x y sx sy "4" = 0 ∧
      apiScrollTicks x y sx sy "5" = 0 ∧
      desktopScrollTicks x y sx sy 4 = 0 ∧
      desktopScrollTicks x y sx sy 5 = 0) ∧
    (sx < 0 → apiScrollTicks x y sx sy "6" = 3 ∧
      apiScrollTicks x y sx sy "7" = 0 ∧
      desktopScrollTicks x y sx sy 6 = 4 ∧
      desktopScrollTicks x y sx sy 7 = 0) ∧
    (0 < sx → apiScrollTicks x y sx sy "7" = 3 ∧
      apiScrollTicks x y sx sy "6" = 0 ∧
      desktopScrollTicks x y sx sy 7 = 4 ∧
      desktopScrollTicks x y sx sy 6 = 0) ∧
    (sx = 0 → apiScrollTicks x y sx sy "6" = 0 ∧
      apiScrollTicks x y sx sy "7" = 0 ∧
      desktopScrollTicks x y sx sy 6 = 0 ∧
      desktopScrollTicks x y sx sy 7 = 0) := by
  refine ⟨rfl, rfl, ?_, ?_, ?_, ?_, ?_, ?_⟩ <;> intro h <;>
    simp only [apiScrollTicks, desktopScrollTicks, scrollCmds,
      desktopScrollCmds, List.drop_succ_cons, List.drop_zero] <;>
    split_ifs <;>
    first
      | omega
      | (simp_all [List.count_append, List.count_replicate, desktopClickCmd,
          displayPrefix] <;> first | decide | omega)

/-- C3 witness: a concrete scroll with large negative deltas issues
exactly the fixed tick counts. -/
theorem scroll_direction_and_fixed_ticks_witness :
    apiScrollTicks 10 20 (-500) (-250) "4" = 3 ∧
    apiScrollTicks 10 20 (-500) (-250) "5" = 0 ∧
    desktopScrollTicks 10 20 (-500) (-250) 4 = 4 ∧
    apiScrollTicks 10 20 (-500) (-250) "6" = 3 ∧
    desktopScrollTicks 10 20 (-500) (-250) 6 = 4 := by
  obtain ⟨-, -, hy, -, -, hx, -, -⟩ :=
    scroll_direction_and_fixed_ticks 10 20 (-500) (-250)
  exact ⟨(hy (by decide)).1, (hy (by decide)).2.1, (hy (by decide)).2.2.1,
    (hx (by decide)).1, (hx (by decide)).2.2.1⟩

/-- C4 (amended): the in-container `type_text` always passes
`--clearmodifiers` to the text-injection primitive, for every text; but
`Desktop.type_text` does not — its dispatched command (shown here at
text `"hello"`) is `export DISPLAY=:99 && xdotool type 'hello'`, which
carries no clear-modifiers option. -/
theorem type_text_clearmodifiers (text : String) :
    "--clearmodifiers" ∈ type_text_cmd text ∧
    desktopTypeTextCmd "hello" =
      "export DISPLAY=:99 && xdotool type \x27hello\x27" ∧
    strContainsSubstr (desktopTypeTextCmd "hello") "--clearmodifiers" = false := by
  refine ⟨?_, rfl, by decide⟩
  simp [type_text_cmd]

/-- C4, counterexample to the claim as stated: at text `"hello"`, the
command `Desktop.type_text` dispatches contains no `--clearmodifiers`
substring at all, so the claim's "both type implementations" part fails. -/
theorem desktop_type_text_no_clearmodifiers :
    strContainsSubstr (desktopTypeTextCmd "hello") "--clearmodifiers" = false := by
  decide

/-! ### Port finder (claim C5) -/

/-- Helper: when every port in `[start, start + N)` is unavailable, the
probe loop visits exactly `start, start+1, …, start+N-1` and raises. -/
theorem fapAux_all_unavail (avail : Nat → Bool) :
    ∀ (N start : Nat), (∀ i, i < N → avail (start + i) = false) →
      findAvailablePortAux avail start N =
        ((List.range N).map (start + ·), none) := by
  intro N
  induction N with
  | zero => intro start _; simp [findAvailablePortAux]
  | succ n ih =>
    intro start h
    have h0 : avail start = false := by simpa using h 0 (Nat.succ_pos n)
    have hr := ih (start + 1) (fun i hi => by
      have := h (i + 1) (by omega)
      simpa [Nat.add_assoc, Nat.add_comm, Nat.add_left_comm] using this)
    simp only [findAvailablePortAux, h0, Bool.false_eq_true, if_false, hr]
    refine Prod.ext ?_ rfl
    simp only [List.range_succ_eq_map, List.map_cons, List.map_map]
    refine congrArg₂ List.cons (by omega) ?_
    refine List.map_congr_left ?_
    intro i _
    simp [Function.comp]
    omega

/-- Helper: when some port in `[start, start + N)` is available, the probe
loop returns the smallest available one. -/
theorem fapAux_finds_first (avail : Nat → Bool) :
    ∀ (N start : Nat), (∃ i, i < N ∧ avail (start + i) = true) →
      ∃ p, (findAvailablePortAux avail start N).2 = some p ∧
        avail p = true ∧ start ≤ p ∧ p < start + N ∧
        ∀ q, start ≤ q → q < p → avail q = false := by
  intro N
  induction N with
  | zero => rintro start ⟨i, hi, -⟩; omega
  | succ n ih =>
    rintro start ⟨i, hi, hav⟩
    by_cases h0 : avail start = true
    · refine ⟨start, ?_, h0, le_refl _, by omega, fun q h1 h2 => by omega⟩
      simp [findAvailablePortAux, h0]
    · have h0' : avail start = false := by
        cases hq : avail start
        · rfl
        · exact absurd hq h0
      have hex : ∃ j, j < n ∧ avail (start + 1 + j) = true := by
        match i, hi, hav with
        | 0, _, hav => rw [Nat.add_zero] at hav; exact absurd hav h0
        | j + 1, hj, hav =>
            exact ⟨j, by omega,
              by rw [show start + 1 + j = start + (j + 1) by omega]; exact hav⟩
      obtain ⟨p, hp1, hp2, hp3, hp4, hp5⟩ := ih (start + 1) hex
      refine ⟨p, ?_, hp2, by omega, by omega, ?_⟩
      · simp only [findAvailablePortAux, h0', Bool.false_eq_true, if_false]
        exact hp1
      · intro q hq1 hq2
        rcases Nat.eq_or_lt_of_le hq1 with heq | hlt
        · rw [← heq]; exact h0'
        · exact hp5 q (by omega) hq2

/-- C5: with `max_attempts = N ≥ 1` and every port in
`[start_port, start_port + N)` unavailable, `find_available_port`
probes exactly `start_port, …, start_port + N - 1`, each once, in
ascending order, and only then raises `PortNotAvailableError` (`none`);
and when some port in the range is available it returns the smallest
such port (`some p` with every smaller in-range port unavailable). -/
theorem find_available_port_probes_and_result (avail : Nat → Bool)
    (start_port N : Nat) (hN : 1 ≤ N) :
    ((∀ i, i < N → avail (start_port + i) = false) →
      find_available_port avail start_port N =
        ((List.range N).map (start_port + ·), none)) ∧
    ((∃ i, i < N ∧ avail (start_port + i) = true) →
      ∃ p, (find_available_port avail start_port N).2 = some p ∧
        avail p = true ∧ start_port ≤ p ∧ p < start_port + N ∧
        ∀ q, start_port ≤ q → q < p → avail q = false) :=
  ⟨fun h => fapAux_all_unavail avail N start_port h,
   fun h => fapAux_finds_first avail N start_port h⟩

/-- C5 witness: with every port unavailable and 3 attempts from 6080 the
probes are 6080, 6081, 6082 and the call raises; with only 6082
available it returns 6082. -/
theorem find_available_port_witness :
    find_available_port (fun _ => false) 6080 3 = ([6080, 6081, 6082], none) ∧
    (find_available_port (fun p => p == 6082) 6080 5).2 = some 6082 := by
  constructor
  · have h := (find_available_port_probes_and_result (fun _ => false)
      6080 3 (by decide)).1 (fun i _ => rfl)
    rw [h]
    decide
  · obtain ⟨p, hp1, hp2, -, -, -⟩ :=
      (find_available_port_probes_and_result (fun p => p == 6082)
        6080 5 (by decide)).2 ⟨2, by decide, by decide⟩
    have hp : p = 6082 := by simpa using hp2
    rw [hp] at hp1
    exact hp1

/-! ### Session event stream (claim C6) -/

/-- Helper: `countComplete` adds over concatenation. -/
theorem countComplete_append (a b : List Event) :
    countComplete (a ++ b) = countComplete a + countComplete b :=
  List.countP_append _ _ _

/-- C6 (amended): for a run that terminates on its own (COMPLETE or
ERROR), the worker thread enqueues exactly one `complete` event, as the
last event; `cancel_agent` itself also enqueues exactly one `complete`;
but a session cancelled while its worker thread is still running
receives `complete` twice — once from `cancel_agent` and once from the
thread's `finally` block — so "exactly one" holds only for uncancelled
runs (a listener still terminates, at the first `complete`). -/
theorem complete_event_counts (outcome : Except String String) (k : Nat) :
    countComplete (runAgentInThreadEvents outcome) = 1 ∧
    (runAgentInThreadEvents outcome).getLast? =
      some (.complete "Task completed") ∧
    countComplete cancelAgentEvents = 1 ∧
    countComplete (cancelledSessionTrace k outcome) = 2 := by
  have h1 : countComplete (runAgentInThreadEvents outcome) = 1 := by
    cases outcome <;> rfl
  have h2 : (runAgentInThreadEvents outcome).getLast? =
      some (.complete "Task completed") := by
    cases outcome <;> rfl
  refine ⟨h1, h2, rfl, ?_⟩
  have h5 : countComplete (cancelledSessionTrace k outcome) =
      countComplete ((runAgentInThreadEvents outcome).take k) +
      countComplete cancelAgentEvents +
      countComplete ((runAgentInThreadEvents outcome).drop k) := by
    rw [cancelledSessionTrace, countComplete_append, countComplete_append]
  have h6 : countComplete ((runAgentInThreadEvents outcome).take k) +
      countComplete ((runAgentInThreadEvents outcome).drop k) =
      countComplete (runAgentInThreadEvents outcome) := by
    rw [← countComplete_append, List.take_append_drop]
  have h7 : countComplete cancelAgentEvents = 1 := rfl
  omega

/-- C6, counterexample to the claim as stated: a session cancelled right
after the worker thread's first enqueue, whose run then finishes
normally, gets two `complete` events on its queue, not exactly one. -/
theorem cancelled_session_two_completes :
    countComplete (cancelledSessionTrace 1 (.ok "done")) = 2 ∧
    countComplete (cancelledSessionTrace 1 (.ok "done")) ≠ 1 := by
  refine ⟨rfl, by decide⟩

/-! ### Sandbox lifecycle (claim C7) -/

/-- C7: `Desktop.stop` on an absent container absorbs the `NotFound` and
returns normally (success); `Desktop.start` on an existing, running
container neither creates a new container nor issues a start, and leaves
the container state unchanged (the running container is reused). -/
theorem lifecycle_stop_absent_and_start_running :
    desktopStop none = (none, StopOutcome.notFoundOk) ∧
    desktopStart (some "running") =
      { state := some "running", created := false, started := false } :=
  ⟨rfl, rfl⟩

/-! ### Request validation (claim C8) -/

/-- Helper: a dict whose keys are all declared schema fields has no
`safety_acknowledged` entry. -/
theorem lookup_none_of_declared (l : List (String × JVal))
    (h : ∀ kv ∈ l, kv.1 = "messages" ∨ kv.1 = "auto_mode") :
    l.lookup "safety_acknowledged" = none := by
  induction l with
  | nil => rfl
  | cons kv tl ih =>
    have hk := h kv (List.mem_cons_self kv tl)
    obtain ⟨k, v⟩ := kv
    have hne : ("safety_acknowledged" == k) = false := by
      rcases hk with hk | hk <;> simp only at hk <;> rw [hk] <;> decide
    simp only [List.lookup]
    rw [hne]
    exact ih (fun kv hkv => h kv (List.mem_cons_of_mem _ hkv))

/-- C8: `AgentRequestSchema` declares only `messages` and `auto_mode`,
and marshmallow's default unknown-field policy rejects anything else, so
on every request `schema.load` accepts, the validated data has no
`safety_acknowledged` key and
`validated_data.get("safety_acknowledged", False)` — the flag
`api_run_agent` forwards to the run — is `False`. -/
theorem safety_acknowledged_always_false (data validated : List (String × JVal))
    (h : agentSchemaLoad data = .ok validated) :
    safetyAckOf validated = false := by
  unfold agentSchemaLoad at h
  split_ifs at h with h1 h2 h3 h4
  injection h with h5
  subst h5
  have hdecl : ∀ kv ∈ data, kv.1 = "messages" ∨ kv.1 = "auto_mode" := by
    intro kv hkv
    by_contra hc
    push_neg at hc
    apply h1
    rw [List.any_eq_true]
    refine ⟨kv, hkv, ?_⟩
    simp [agentSchemaFields, hc.1, hc.2]
  rw [safetyAckOf, lookup_none_of_declared data hdecl]

/-- C8 witness: the accepted request `{"messages": "hi"}` validates and
its forwarded safety flag is `False`. -/
theorem safety_acknowledged_always_false_witness :
    agentSchemaLoad [("messages", JVal.str "hi")] =
      .ok [("messages", JVal.str "hi")] ∧
    safetyAckOf [("messages", JVal.str "hi")] = false :=
  ⟨by rfl, safety_acknowledged_always_false [("messages", JVal.str "hi")]
    [("messages", JVal.str "hi")] (by rfl)⟩

/-! ### Shared result holder (claim C9) -/

/-- C9: `run_agent_action` reads its `agent_response` out of the shared
class-level holder `result = [None]`, so a run whose handlers never
write the holder returns whatever the previous run left there: after a
first run that wrote `v`, a second run with no handler write returns
`v`, and two such second runs with identical inputs but different
predecessors return different values — the output is not a function of
the current request alone. -/
theorem result_holder_shared_across_runs (v w : List String) (hvw : v ≠ w) :
    (run_agent_action (run_agent_action initServerState
        (some (some v))).1 none).2 = some v ∧
    (run_agent_action (run_agent_action initServerState
        (some (some w))).1 none).2 = some w ∧
    (run_agent_action (run_agent_action initServerState
        (some (some v))).1 none).2 ≠
      (run_agent_action (run_agent_action initServerState
        (some (some w))).1 none).2 := by
  refine ⟨rfl, rfl, ?_⟩
  intro h
  exact hvw (Option.some_injective _ h)

/-- C9 witness: concrete holder values `["a"]` and `["b"]`. -/
theorem result_holder_shared_across_runs_witness :
    (run_agent_action (run_agent_action initServerState
        (some (some ["a"]))).1 none).2 = some ["a"] ∧
    (run_agent_action (run_agent_action initServerState
        (some (some ["a"]))).1 none).2 ≠
      (run_agent_action (run_agent_action initServerState
        (some (some ["b"]))).1 none).2 :=
  ⟨(result_holder_shared_across_runs ["a"] ["b"] (by decide)).1,
   (result_holder_shared_across_runs ["a"] ["b"] (by decide)).2.2⟩

/-! ### Generic action dispatch (claim C10) -/

/-- C10: `POST /action` rejects with a 400 — before dispatching any
command against the display (the command trace is empty) — an unknown
`type`, a `click` or `scroll` missing `x` or `y`, a `keypress` with no
or empty `keys`, a `type` without `text`, and a `goto` without `url`;
and a `wait` with no `seconds` succeeds using the default `2.0`. -/
theorem api_action_validation (cap : Except String String)
    (a : ActionRequest) :
    (a.type = "click" → (a.x = none ∨ a.y = none) →
      api_action cap a =
        ([], .error (400, "Click action requires x and y coordinates"))) ∧
    (a.type = "scroll" → (a.x = none ∨ a.y = none) →
      api_action cap a =
        ([], .error (400, "Scroll action requires x and y coordinates"))) ∧
    (a.type = "keypress" → (a.keys = none ∨ a.keys = some []) →
      api_action cap a = ([], .error (400, "Keypress action requires keys"))) ∧
    (a.type = "type" → a.text = none →
      api_action cap a = ([], .error (400, "Type action requires text"))) ∧
    (a.type = "goto" → a.url = none →
      api_action cap a = ([], .error (400, "Goto action requires a URL"))) ∧
    (a.type ∉ ["click", "scroll", "keypress", "type", "wait", "screenshot",
        "goto"] →
      api_action cap a =
        ([], .error (400, "Unknown action type: " ++ a.type))) ∧
    (a.type = "wait" → a.seconds = none →
      api_action cap a = ([], .ok (.wait 2))) := by
  refine ⟨?_, ?_, ?_, ?_, ?_, ?_, ?_⟩
  · intro ht hxy
    cases hx : a.x <;> cases hy : a.y <;> simp_all [api_action]
  · intro ht hxy
    cases hx : a.x <;> cases hy : a.y <;> simp_all [api_action]
  · intro ht hk
    rcases hk with hk | hk <;> simp_all [api_action]
  · intro ht hk
    simp_all [api_action]
  · intro ht hk
    simp_all [api_action]
  · intro ht
    simp only [List.mem_cons, List.not_mem_nil, or_false, not_or] at ht
    obtain ⟨h1, h2, h3, h4, h5, h6, h7⟩ := ht
    simp [api_action, h1, h2, h3, h4, h5, h6, h7]
  · intro ht hs
    simp_all [api_action]

/-- C10 witness: concrete requests — an unknown tag, a `click` with no
coordinates, and a bare `wait` — behave as the theorem states. -/
theorem api_action_validation_witness :
    api_action (.ok "img") { type := "frobnicate" } =
      ([], .error (400, "Unknown action type: frobnicate")) ∧
    api_action (.ok "img") { type := "click" } =
      ([], .error (400, "Click action requires x and y coordinates")) ∧
    api_action (.ok "img") { type := "wait" } = ([], .ok (.wait 2)) := by
  refine ⟨?_, ?_, ?_⟩
  · exact (api_action_validation (.ok "img") { type := "frobnicate" }).2.2.2.2.2.1
      (by decide)
  · exact (api_action_validation (.ok "img") { type := "click" }).1 rfl
      (Or.inl rfl)
  · exact (api_action_validation (.ok "img") { type := "wait" }).2.2.2.2.2.2
      rfl rfl

end Spongecake
